import Mathlib

/-!
Verification of the transaction-message ingestion pipeline of the
`expenses_Tracker` repository (Flask + SQLAlchemy).

The development shallowly embeds the pipeline:

* `parse_transaction_message` embeds the response validation of
  `LLMService.parse_transaction_message` (src/services/llm_service.py,
  lines 294-335).  The network call itself is an external capability; the
  embedding takes its result (`Option LLMRaw`) as input.
* `TransactionService` methods (src/services/transaction_service.py) are
  embedded as pure functions over an explicit session state `Session`
  holding the committed database and the current (uncommitted) view, with
  `commit` / `rollback` mirroring `db.session.commit()` /
  `db.session.rollback()`; `db.session.flush()` only makes pending rows
  visible to queries of the same session, which the embedding models by
  running all queries against the current view.
* Monetary amounts are embedded as rationals `ℚ` (the code stores Python
  floats in `db.Float` columns; the claims under study are about the
  bookkeeping algebra, which the embedding states exactly over `ℚ`).
* Timestamps (`datetime.utcnow()`, `date.today()`) are inert in every
  claim and are embedded as `Nat` parameters `now` / `today`.
* `hashlib.sha256(...).hexdigest()` is embedded as an explicit function
  parameter `hash : String → String`: the pipeline only uses that the
  fingerprint is a deterministic function of the exact message text.
-/

/-- JSON values as they matter to the validation code.  `jnum` stands for
any value Python's `float()` converts (JSON numbers, and booleans, which
`float()` maps to 0.0/1.0); `jstr` for JSON strings (`float()` parses
plain decimal literals from them); `jother` for values on which `float()`
raises (`null`, arrays, objects). -/
inductive JVal where
  | jnum (q : ℚ)
  | jstr (s : String)
  | jother
deriving DecidableEq

/-- Result of `json.loads` on the raw LLM response: either the text is not
valid JSON (or not a JSON object usable as a dict of fields), or it is an
object with named fields. -/
inductive LLMRaw where
  | notJson
  | jsonObj (fields : List (String × JVal))
deriving DecidableEq

/-- `LLMService.EXPENSE_CATEGORIES` (src/services/llm_service.py, line 28). -/
def EXPENSE_CATEGORIES : List String :=
  ["Food", "Travel", "Shopping", "Bills", "Entertainment", "Health", "Other"]

/-- Dictionary lookup `parsed[key]` / `key in parsed`. -/
def lookupField (fields : List (String × JVal)) (key : String) : Option JVal :=
  (fields.find? (fun kv => kv.1 == key)).map (fun kv => kv.2)

/-- Value of a nonempty all-digit character list. -/
def digitsVal? (cs : List Char) : Option Nat :=
  if cs ≠ [] ∧ cs.all Char.isDigit then
    some (cs.foldl (fun n c => 10 * n + (c.toNat - 48)) 0)
  else none

/-- Split a character list into the segments between `'.'` characters. -/
def splitSegs : List Char → List (List Char)
  | [] => [[]]
  | c :: cs =>
    match splitSegs cs with
    | [] => [[]]
    | seg :: rest => if c = '.' then [] :: seg :: rest else (c :: seg) :: rest

/-- Python `float()` applied to a string, restricted to plain decimal
literals (optional minus sign, digits, optional fractional part).  No
claim exercises the exotic accepted forms (exponents, `inf`, padding). -/
def strToRat? (s : String) : Option ℚ :=
  let cs := s.toList
  let (neg, body) : Bool × List Char :=
    match cs with
    | '-' :: rest => (true, rest)
    | _ => (false, cs)
  match splitSegs body with
  | [intPart] =>
      (digitsVal? intPart).map
        (fun n => if neg then -(n : ℚ) else (n : ℚ))
  | [intPart, fracPart] =>
      match digitsVal? intPart, digitsVal? fracPart with
      | some i, some f =>
          let q : ℚ := (i : ℚ) + (f : ℚ) / (10 : ℚ) ^ fracPart.length
          some (if neg then -q else q)
      | _, _ => none
  | _ => none

/-- Python `float(v)` on a JSON value (raises ↦ `none`). -/
def floatOf : JVal → Option ℚ
  | JVal.jnum q => some q
  | JVal.jstr s => strToRat? s
  | JVal.jother => none

/-- The validated structured result of `parse_transaction_message`:
`transaction_type` has been checked to be `"Credit"` or `"Debit"`,
`amount` has been converted by `float()` and checked positive,
`expense_category` has been coerced into the fixed category set;
`merchant_or_source` is only checked for presence, so it stays a `JVal`. -/
structure Parsed where
  transaction_type : String
  amount : ℚ
  merchant_or_source : JVal
  expense_category : String
deriving DecidableEq

/-- `LLMService.parse_transaction_message` response validation
(src/services/llm_service.py, lines 294-335).  `response` is the result of
`_make_api_call` already passed through `json.loads` (`none`: the API call
failed; `notJson`: `json.loads` raised `JSONDecodeError`).  The source
first tests membership of the four `required_fields` and then indexes
them; the four-way `some`-match below is that joint presence test. -/
def parse_transaction_message (response : Option LLMRaw) : Option Parsed :=
  match response with
  | none => none
  | some LLMRaw.notJson => none
  | some (LLMRaw.jsonObj fields) =>
    match lookupField fields "transaction_type", lookupField fields "amount",
          lookupField fields "merchant_or_source",
          lookupField fields "expense_category" with
    | some ttv, some av, some mv, some cv =>
      -- `parsed['transaction_type'] not in ['Credit', 'Debit']` rejects;
      -- a non-string value compares unequal to both strings.
      let ttOk : Option String :=
        match ttv with
        | JVal.jstr t => if t = "Credit" ∨ t = "Debit" then some t else none
        | _ => none
      match ttOk with
      | none => none
      | some t =>
        match floatOf av with
        | none => none
        | some a =>
          if a ≤ 0 then none
          else
            let cat : String :=
              match cv with
              | JVal.jstr c => if c ∈ EXPENSE_CATEGORIES then c else "Other"
              | _ => "Other"
            some { transaction_type := t, amount := a,
                   merchant_or_source := mv, expense_category := cat }
    | _, _, _, _ => none

/-!  ## Data model (src/models/models.py)

Only the columns some claim reads are carried; inert audit columns
(`raw_llm_response`, `llm_confidence`, `created_at`, the primary keys of
`Transaction`/`Income`/`UserBalance`) are omitted, no claim mentions them.
-/

/-- `Transaction` (audit row, src/models/models.py lines 204-238). -/
structure Transaction where
  user_id : Nat
  message_text : String
  message_hash : String
  transaction_type : Option String := none
  amount : Option ℚ := none
  merchant_or_source : Option JVal := none
  category : Option String := none
  processing_status : String := "pending"
  error_message : Option String := none
  processed_at : Option Nat := none
deriving DecidableEq

/-- `Expense` (src/models/models.py lines 106-146). -/
structure Expense where
  id : Nat
  user_id : Nat
  amount : ℚ
  description : String
  category : String
  date : Nat
  ai_classified : Bool := false
  transaction_type : Option String := none
  merchant_or_source : Option JVal := none
  is_auto_detected : Bool := false
  message_hash : Option String := none
  original_message : Option String := none
deriving DecidableEq

/-- `Income` (src/models/models.py lines 71-90).  The model has exactly
these data columns: no auto-detection flag, no message hash. -/
structure Income where
  user_id : Nat
  amount : ℚ
  source : JVal
  date : Nat
deriving DecidableEq

/-- `UserBalance` (src/models/models.py lines 167-188); the three money
columns default to 0.0. -/
structure UserBalance where
  user_id : Nat
  current_balance : ℚ := 0
  total_credits : ℚ := 0
  total_debits : ℚ := 0
  last_updated : Nat
deriving DecidableEq

/-- One relational store: the rows of the four tables the pipeline
touches, plus the autoincrement counter handing out `Expense.id`s. -/
structure DB where
  transactions : List Transaction := []
  expenses : List Expense := []
  incomes : List Income := []
  balances : List UserBalance := []
  next_expense_id : Nat := 0
deriving DecidableEq

/-- SQLAlchemy session state: `committed` is what the database holds,
`current` is the session's view including pending (flushed or in-memory)
changes.  Queries read `current`; `flush` is a no-op on this model. -/
structure Session where
  committed : DB
  current : DB
deriving DecidableEq

/-- `db.session.commit()`. -/
def commitS (s : Session) : Session := ⟨s.current, s.current⟩

/-- `db.session.rollback()`. -/
def rollbackS (s : Session) : Session := ⟨s.committed, s.committed⟩

/-- The state of a fresh deployment: empty tables. -/
def initSession : Session := ⟨{}, {}⟩

/-- Replace the first element satisfying `p` by its image under `f`
(SQLAlchemy mutation of the single row returned by `.first()`). -/
def editFirst {α : Type} (p : α → Bool) (f : α → α) : List α → List α
  | [] => []
  | x :: xs => if p x then f x :: xs else x :: editFirst p f xs

/-- Remove the first element satisfying `p` (`db.session.delete` of the
row returned by `.first()`). -/
def removeFirst {α : Type} (p : α → Bool) : List α → List α
  | [] => []
  | x :: xs => if p x then xs else x :: removeFirst p xs

/-- `UserBalance.query.filter_by(user_id=user_id).first()`. -/
def findBalance (d : DB) (user_id : Nat) : Option UserBalance :=
  d.balances.find? (fun b => b.user_id == user_id)

/-- `Expense.query.filter_by(id=expense_id, user_id=user_id,
is_auto_detected=True).first()`. -/
def findAutoExpense (d : DB) (expense_id user_id : Nat) : Option Expense :=
  d.expenses.find?
    (fun e => e.id == expense_id && e.user_id == user_id && e.is_auto_detected)

/-!  ## TransactionService (src/services/transaction_service.py) -/

/-- `TransactionService.check_duplicate_message` (lines 49-65): true iff a
`Transaction` row with this `(user_id, message_hash)` pair exists — note
no condition on `processing_status`. -/
def check_duplicate_message (d : DB) (user_id : Nat) (message_hash : String) :
    Bool :=
  (d.transactions.find?
    (fun t => t.user_id == user_id && t.message_hash == message_hash)).isSome

/-- Failure injection for the storage layer inside
`TransactionService.update_balance`'s `try` block: no failure, an
exception raised before the balance row is touched (e.g. the query
raises), or an exception raised by the final `db.session.commit()`. -/
inductive UBFail where
  | uNone
  | uBeforeMutation
  | uAtCommit
deriving DecidableEq

/-- `TransactionService.update_balance` (lines 185-231).  Creates a
zeroed balance row if none exists (visible in the session after
`flush`), then mutates it according to `transaction_type` and commits;
any caught exception (injected through `fail`) makes it return `false`
with pending changes left in the session, exactly as the Python
`except` branch does (the caller is the one to roll back). -/
def applyToBalance (user_id : Nat) (f : UserBalance → UserBalance) (d : DB) :
    DB :=
  { d with balances := editFirst (fun b => b.user_id == user_id) f d.balances }

/-- In-place mutation of the debit branch of `update_balance`
(lines 216-218). -/
def debitMutation (amount : ℚ) (now : Nat) (b : UserBalance) : UserBalance :=
  { b with current_balance := b.current_balance - amount,
           total_debits := b.total_debits + amount,
           last_updated := now }

/-- In-place mutation of the credit branch of `update_balance`
(lines 219-221). -/
def creditMutation (amount : ℚ) (now : Nat) (b : UserBalance) : UserBalance :=
  { b with current_balance := b.current_balance + amount,
           total_credits := b.total_credits + amount,
           last_updated := now }

def update_balance (fail : UBFail) (user_id : Nat) (amount : ℚ)
    (transaction_type : String) (now : Nat) (s : Session) : Bool × Session :=
  match fail with
  | UBFail.uBeforeMutation => (false, s)
  | _ =>
    let cur := s.current
    let cur :=
      if (findBalance cur user_id).isSome then cur
      else { cur with balances := cur.balances ++ [{ user_id := user_id, last_updated := now }] }
    if transaction_type = "Debit" then
      let cur := applyToBalance user_id (debitMutation amount now) cur
      match fail with
      | UBFail.uAtCommit => (false, { s with current := cur })
      | _ => (true, commitS { s with current := cur })
    else if transaction_type = "Credit" then
      let cur := applyToBalance user_id (creditMutation amount now) cur
      match fail with
      | UBFail.uAtCommit => (false, { s with current := cur })
      | _ => (true, commitS { s with current := cur })
    else
      (false, { s with current := cur })

/-- Result triple of `process_transaction_message`:
`(success, transaction_data, message)`. -/
structure ProcResult where
  success : Bool
  data : Option Parsed
  message : String
deriving DecidableEq

/-- Python `str()` of a JSON value as it appears interpolated in the
`description` f-string; only the string case is ever inspected by a
claim, the other renderings are abbreviated. -/
def pyStr : JVal → String
  | JVal.jstr s => s
  | JVal.jnum _ => "<number>"
  | JVal.jother => "<value>"

/-- The `Expense` row built by step 5 of the pipeline (lines 152-165). -/
def autoExpense (user_id : Nat) (parsed : Parsed) (message_hash message_text : String)
    (today : Nat) (id : Nat) : Expense :=
  { id := id, user_id := user_id, amount := parsed.amount,
    description := "Auto: " ++ pyStr parsed.merchant_or_source,
    category := parsed.expense_category, date := today,
    ai_classified := true, transaction_type := some "Debit",
    merchant_or_source := some parsed.merchant_or_source,
    is_auto_detected := true, message_hash := some message_hash,
    original_message := some message_text }

/-- The audit `Transaction` row written on the parse-failure branch
(lines 108-114). -/
def errorRecord (user_id : Nat) (message_text message_hash : String) :
    Transaction :=
  { user_id := user_id, message_text := message_text,
    message_hash := message_hash, processing_status := "error",
    error_message := some "Failed to parse message with LLM" }

/-- The audit `Transaction` row written on the parse-success branch
(lines 121-132). -/
def processedRecord (user_id : Nat) (message_text message_hash : String)
    (parsed : Parsed) (now : Nat) : Transaction :=
  { user_id := user_id, message_text := message_text,
    message_hash := message_hash,
    transaction_type := some parsed.transaction_type,
    amount := some parsed.amount,
    merchant_or_source := some parsed.merchant_or_source,
    category := some parsed.expense_category,
    processing_status := "processed", processed_at := some now }

/-- Step 3: `db.session.add(transaction); db.session.flush()` — the
parse-success audit row becomes visible in the session view. -/
def recordSession (user_id : Nat) (message_text message_hash : String)
    (parsed : Parsed) (now : Nat) (s : Session) : Session :=
  { s with current := { s.current with transactions :=
      s.current.transactions ++ [processedRecord user_id message_text message_hash parsed now] } }

/-- Step 5, debit branch: append the auto-detected `Expense` row, whose
`id` the autoincrement column hands out. -/
def addAutoExpense (user_id : Nat) (parsed : Parsed)
    (message_hash message_text : String) (today : Nat) (d : DB) : DB :=
  { d with expenses := d.expenses ++ [autoExpense user_id parsed message_hash message_text today d.next_expense_id],
           next_expense_id := d.next_expense_id + 1 }

/-- Step 5, credit branch: append the `Income` row (lines 168-174) — its
only columns are user, amount, source and date. -/
def addIncome (user_id : Nat) (parsed : Parsed) (today : Nat) (d : DB) : DB :=
  { d with incomes := d.incomes ++ [{ user_id := user_id, amount := parsed.amount,
                                      source := parsed.merchant_or_source, date := today }] }

/-- Steps 4-5 of `process_transaction_message` past the `update_balance`
call: on `False`, `db.session.rollback()` and the balance-failure result
(lines 143-145); on `True`, step 5 writes the derived entry — an
`Expense` for a Debit, an `Income` (with only its four data columns) for
everything else — and commits (lines 147-178). -/
def finishProcess (user_id : Nat) (parsed : Parsed)
    (message_hash message_text : String) (today : Nat) :
    Bool × Session → ProcResult × Session
  | (false, s2) =>
    (⟨false, none, "Failed to update balance. Please try again."⟩, rollbackS s2)
  | (true, s2) =>
    let cur :=
      if parsed.transaction_type = "Debit" then
        addAutoExpense user_id parsed message_hash message_text today s2.current
      else
        addIncome user_id parsed today s2.current
    (⟨true, some parsed, "Transaction processed successfully!"⟩,
      commitS { s2 with current := cur })

/-- `TransactionService.process_transaction_message` (lines 67-183).
`hash` is `generate_message_hash` (SHA-256, embedded as an abstract
deterministic function of the text), `parse` is
`llm_service.parse_transaction_message`, `fail` injects storage failures
into the `update_balance` call (step 4).  The success message's
interpolated amount/merchant rendering is elided; no claim reads it. -/
def process_transaction_message (hash : String → String)
    (parse : String → Option Parsed) (fail : UBFail) (user_id : Nat)
    (message_text : String) (now today : Nat) (s : Session) :
    ProcResult × Session :=
  let message_hash := hash message_text
  if check_duplicate_message s.current user_id message_hash then
    (⟨false, none, "This message has already been processed. Skipping duplicate."⟩, s)
  else
    match parse message_text with
    | none =>
      let cur := { s.current with transactions :=
        s.current.transactions ++ [errorRecord user_id message_text message_hash] }
      (⟨false, none, "Failed to parse message. Try providing more details."⟩,
        commitS { s with current := cur })
    | some parsed =>
      finishProcess user_id parsed message_hash message_text today
        (update_balance fail user_id parsed.amount parsed.transaction_type now
          (recordSession user_id message_text message_hash parsed now s))

/-- The dictionary returned by `TransactionService.get_user_balance`
(lines 233-252): `to_dict()` of the row when one exists, otherwise the
literal zero dictionary (which carries no `last_updated` key). -/
structure BalanceDict where
  current_balance : ℚ
  total_credits : ℚ
  total_debits : ℚ
  last_updated : Option Nat
deriving DecidableEq

def get_user_balance (d : DB) (user_id : Nat) : BalanceDict :=
  match findBalance d user_id with
  | some b => ⟨b.current_balance, b.total_credits, b.total_debits, some b.last_updated⟩
  | none => ⟨0, 0, 0, none⟩

/-- The `updates` dict accepted by `edit_auto_transaction`.  The route
validates `updates['amount']` with `validate_amount` before the service
runs, so the `float()` conversion is embedded as an already-numeric
optional field. -/
structure Updates where
  amount : Option ℚ := none
  category : Option String := none
  description : Option String := none
  merchant_or_source : Option JVal := none
deriving DecidableEq

/-- Field-by-field application of the `updates` dict (lines 286-293):
each provided key overwrites the stored column, absent keys leave it. -/
def applyUpdates (updates : Updates) (e : Expense) : Expense :=
  { e with amount := updates.amount.getD e.amount,
           category := updates.category.getD e.category,
           description := updates.description.getD e.description,
           merchant_or_source := if updates.merchant_or_source.isSome
                                 then updates.merchant_or_source
                                 else e.merchant_or_source }

/-- `TransactionService.edit_auto_transaction` (lines 254-308). -/
def edit_auto_transaction (expense_id user_id : Nat) (updates : Updates)
    (now : Nat) (s : Session) : (Bool × String) × Session :=
  match findAutoExpense s.current expense_id user_id with
  | none => ((false, "Auto-detected transaction not found."), s)
  | some e =>
    let old_amount := e.amount
    let e1 := applyUpdates updates e
    let p : Expense → Bool :=
      fun x => x.id == expense_id && x.user_id == user_id && x.is_auto_detected
    let cur := { s.current with expenses := editFirst p (fun _ => e1) s.current.expenses }
    let cur :=
      if updates.amount.isSome ∧ old_amount ≠ e1.amount then
        let difference := old_amount - e1.amount
        match findBalance cur user_id with
        | some _ =>
          applyToBalance user_id
            (fun b => { b with current_balance := b.current_balance + difference,
                               last_updated := now }) cur
        | none => cur
      else cur
    ((true, "Transaction updated successfully."), commitS { s with current := cur })

/-- In-place mutation of the reversal in `delete_auto_transaction`
(lines 341-348): direction chosen by the stored `transaction_type`. -/
def reverseMutation (e : Expense) (now : Nat) (b : UserBalance) : UserBalance :=
  if e.transaction_type = some "Debit" then
    { b with current_balance := b.current_balance + e.amount,
             total_debits := b.total_debits - e.amount,
             last_updated := now }
  else
    { b with current_balance := b.current_balance - e.amount,
             total_credits := b.total_credits - e.amount,
             last_updated := now }

/-- `TransactionService.delete_auto_transaction` (lines 310-358). -/
def delete_auto_transaction (expense_id user_id : Nat) (now : Nat)
    (s : Session) : (Bool × String) × Session :=
  match findAutoExpense s.current expense_id user_id with
  | none => ((false, "Auto-detected transaction not found."), s)
  | some e =>
    let cur := s.current
    let cur :=
      match findBalance cur user_id with
      | some _ => applyToBalance user_id (reverseMutation e now) cur
      | none => cur
    let p : Expense → Bool :=
      fun x => x.id == expense_id && x.user_id == user_id && x.is_auto_detected
    let cur := { cur with expenses := removeFirst p cur.expenses }
    ((true, "Transaction deleted and balance reversed."), commitS { s with current := cur })

/-!  ## Ingestion route (src/routes/transactions.py, lines 32-97) -/

/-- JSON body plus HTTP status returned by `upload_transaction_message`;
`data`/`balance` are `none` when the corresponding key is absent from the
response dictionary. -/
structure HttpResponse where
  success : Bool
  message : String
  data : Option Parsed := none
  balance : Option BalanceDict := none
  status : Nat
deriving DecidableEq

/-- Python `str.strip()`: drop leading and trailing whitespace
(structurally recursive over the character list, so that concrete runs
evaluate). -/
def pyStrip (s : String) : String :=
  ⟨((s.data.dropWhile Char.isWhitespace).reverse.dropWhile
      Char.isWhitespace).reverse⟩

/-- `upload_transaction_message` (src/routes/transactions.py, lines
32-97).  `body` is the `message` field of the request JSON (absent ↦
`none`); `.strip()` is embedded as `pyStrip`.  The final line of the
route is `return jsonify(response_data), 200 if success else 400`, and
`balance` is attached only on success. -/
def upload_transaction_message (hash : String → String)
    (parse : String → Option Parsed) (fail : UBFail) (user_id : Nat)
    (body : Option String) (now today : Nat) (s : Session) :
    HttpResponse × Session :=
  match body with
  | none =>
    ({ success := false, message := "Message text is required", status := 400 }, s)
  | some raw =>
    let message_text := pyStrip raw
    if message_text.length < 10 then
      ({ success := false,
         message := "Message is too short. Please provide a complete transaction message.",
         status := 400 }, s)
    else if message_text.length > 2000 then
      ({ success := false,
         message := "Message is too long. Maximum 2000 characters allowed.",
         status := 400 }, s)
    else
      match process_transaction_message hash parse fail user_id message_text now today s with
      | (r, s1) =>
        let bal := if r.success then some (get_user_balance s1.current user_id) else none
        ({ success := r.success, message := r.message, data := r.data,
           balance := bal, status := if r.success then 200 else 400 }, s1)

/-!  ## Observable pipeline operations and the balance invariant -/

/-- One observable pipeline operation, with its external environment
(the parse outcome the LLM capability returns for the message, and the
injected storage-failure point). -/
inductive PipelineOp where
  | pmsg (parse_result : Option Parsed) (fail : UBFail) (user_id : Nat)
      (msg : String) (now today : Nat)
  | pedit (expense_id user_id : Nat) (updates : Updates) (now : Nat)
  | pdel (expense_id user_id : Nat) (now : Nat)

/-- Whether the operation is an edit of an auto-detected entry. -/
def PipelineOp.isAnEdit : PipelineOp → Bool
  | PipelineOp.pedit _ _ _ _ => true
  | _ => false

def runOp (hash : String → String) (s : Session) : PipelineOp → Session
  | PipelineOp.pmsg pr fail u msg now today =>
      (process_transaction_message hash (fun _ => pr) fail u msg now today s).2
  | PipelineOp.pedit i u upd now => (edit_auto_transaction i u upd now s).2
  | PipelineOp.pdel i u now => (delete_auto_transaction i u now s).2

def runOps (hash : String → String) (ops : List PipelineOp) (s : Session) :
    Session :=
  ops.foldl (runOp hash) s

/-- The core bookkeeping invariant of one balance row. -/
def balInv (b : UserBalance) : Prop :=
  b.current_balance = b.total_credits - b.total_debits

instance (b : UserBalance) : Decidable (balInv b) := by
  unfold balInv; infer_instance

/-- Every balance row of the store satisfies the invariant. -/
def dbInv (d : DB) : Prop := ∀ b ∈ d.balances, balInv b

/-- The invariant at an observable point: it holds of the committed
store and of the session view. -/
def sessionInv (s : Session) : Prop := dbInv s.committed ∧ dbInv s.current


/-!  ## Helper lemmas -/

theorem editFirst_forall {α : Type} {P : α → Prop} (p : α → Bool) (f : α → α)
    (l : List α) (hl : ∀ x ∈ l, P x) (hf : ∀ x, P x → P (f x)) :
    ∀ x ∈ editFirst p f l, P x := by
  induction l with
  | nil => simp [editFirst]
  | cons y ys ih =>
    intro x hx
    by_cases hp : p y
    · simp only [editFirst, hp, if_pos, List.mem_cons] at hx
      rcases hx with rfl | hx
      · exact hf y (hl y (by simp))
      · exact hl x (by simp [hx])
    · simp only [editFirst, hp, Bool.false_eq_true, if_false, List.mem_cons] at hx
      rcases hx with rfl | hx
      · exact hl x (by simp)
      · exact ih (fun z hz => hl z (by simp [hz])) x hx

theorem map_editFirst {α β : Type} (proj : α → β) (p : α → Bool) (f : α → α)
    (l : List α) (h : ∀ x, proj (f x) = proj x) :
    (editFirst p f l).map proj = l.map proj := by
  induction l with
  | nil => rfl
  | cons y ys ih =>
    by_cases hp : p y
    · simp [editFirst, hp, h]
    · simp [editFirst, hp, ih]

theorem find?_editFirst {α : Type} (p : α → Bool) (f : α → α) (l : List α)
    (b : α) (hb : l.find? p = some b) (hf : p (f b) = true) :
    (editFirst p f l).find? p = some (f b) := by
  induction l with
  | nil => simp [List.find?] at hb
  | cons y ys ih =>
    by_cases hp : p y
    · rw [List.find?_cons_of_pos _ hp] at hb
      injection hb with hb
      subst hb
      simp [editFirst, hp, List.find?_cons_of_pos _ hf]
    · rw [List.find?_cons_of_neg _ (by simpa using hp)] at hb
      simp only [editFirst, hp, Bool.false_eq_true, if_false]
      rw [List.find?_cons_of_neg _ (by simpa using hp)]
      exact ih hb

theorem countP_removeFirst {α : Type} (p : α → Bool) (l : List α)
    (hl : (l.find? p).isSome) :
    (removeFirst p l).countP p = l.countP p - 1 := by
  induction l with
  | nil => simp [List.find?] at hl
  | cons y ys ih =>
    by_cases hp : p y
    · simp [removeFirst, hp, List.countP_cons]
    · have hys : (ys.find? p).isSome := by
        rw [List.find?_cons_of_neg _ (by simpa using hp)] at hl
        exact hl
      simp [removeFirst, hp, List.countP_cons, ih hys]

theorem find?_eq_none_of_countP_eq_zero {α : Type} (p : α → Bool) (l : List α)
    (h : l.countP p = 0) : l.find? p = none := by
  rw [List.find?_eq_none]
  intro x hx hpx
  have hpos : 0 < l.countP p := List.countP_pos_iff.mpr ⟨x, hx, hpx⟩
  omega

/-!  ## Invariant preservation -/

theorem dbInv_editFirst (user_id : Nat) (f : UserBalance → UserBalance)
    (d : DB) (hd : dbInv d) (hf : ∀ b, balInv b → balInv (f b)) :
    dbInv (applyToBalance user_id f d) := by
  intro b hb
  exact editFirst_forall _ f d.balances hd hf b hb

theorem balInv_debitMutation (amount : ℚ) (now : Nat) (b : UserBalance)
    (hb : balInv b) : balInv (debitMutation amount now b) := by
  simp only [balInv, debitMutation] at hb ⊢
  rw [hb]; ring

theorem balInv_creditMutation (amount : ℚ) (now : Nat) (b : UserBalance)
    (hb : balInv b) : balInv (creditMutation amount now b) := by
  simp only [balInv, creditMutation] at hb ⊢
  rw [hb]; ring

theorem dbInv_newBalance (d : DB) (user_id now : Nat) (hd : dbInv d) :
    dbInv { d with balances := d.balances ++ [{ user_id := user_id, last_updated := now }] } := by
  intro b hb
  simp only [List.mem_append, List.mem_singleton] at hb
  rcases hb with hb | rfl
  · exact hd b hb
  · simp [balInv]

theorem update_balance_inv (fail : UBFail) (user_id : Nat) (amount : ℚ)
    (transaction_type : String) (now : Nat) (s : Session)
    (hs : sessionInv s) :
    sessionInv (update_balance fail user_id amount transaction_type now s).2 := by
  obtain ⟨hc, hcur⟩ := hs
  unfold update_balance
  cases fail with
  | uBeforeMutation => exact ⟨hc, hcur⟩
  | uNone =>
    simp only
    set cur1 := if (findBalance s.current user_id).isSome then s.current
      else { s.current with balances := s.current.balances ++ [{ user_id := user_id, last_updated := now }] } with hcur1
    have hinv1 : dbInv cur1 := by
      rw [hcur1]
      split
      · exact hcur
      · exact dbInv_newBalance s.current user_id now hcur
    split
    · exact ⟨dbInv_editFirst _ _ _ hinv1 (balInv_debitMutation amount now),
             dbInv_editFirst _ _ _ hinv1 (balInv_debitMutation amount now)⟩
    · split
      · exact ⟨dbInv_editFirst _ _ _ hinv1 (balInv_creditMutation amount now),
               dbInv_editFirst _ _ _ hinv1 (balInv_creditMutation amount now)⟩
      · exact ⟨hc, hinv1⟩
  | uAtCommit =>
    simp only
    set cur1 := if (findBalance s.current user_id).isSome then s.current
      else { s.current with balances := s.current.balances ++ [{ user_id := user_id, last_updated := now }] } with hcur1
    have hinv1 : dbInv cur1 := by
      rw [hcur1]
      split
      · exact hcur
      · exact dbInv_newBalance s.current user_id now hcur
    split
    · exact ⟨hc, dbInv_editFirst _ _ _ hinv1 (balInv_debitMutation amount now)⟩
    · split
      · exact ⟨hc, dbInv_editFirst _ _ _ hinv1 (balInv_creditMutation amount now)⟩
      · exact ⟨hc, hinv1⟩


theorem finishProcess_inv (user_id : Nat) (parsed : Parsed)
    (message_hash message_text : String) (today : Nat) (ub : Bool × Session)
    (hub : sessionInv ub.2) :
    sessionInv (finishProcess user_id parsed message_hash message_text today ub).2 := by
  obtain ⟨ok, s2⟩ := ub
  obtain ⟨hc, hcur⟩ := hub
  cases ok with
  | false => exact ⟨hc, hc⟩
  | true =>
    simp only [finishProcess]
    split
    · exact ⟨hcur, hcur⟩
    · exact ⟨hcur, hcur⟩

theorem process_inv (hash : String → String) (parse : String → Option Parsed)
    (fail : UBFail) (user_id : Nat) (message_text : String) (now today : Nat)
    (s : Session) (hs : sessionInv s) :
    sessionInv (process_transaction_message hash parse fail user_id
      message_text now today s).2 := by
  obtain ⟨hc, hcur⟩ := hs
  by_cases hdup : check_duplicate_message s.current user_id (hash message_text) = true
  · simp only [process_transaction_message, hdup, if_true]
    exact ⟨hc, hcur⟩
  · cases hp : parse message_text with
    | none =>
      simp only [process_transaction_message, hdup, Bool.false_eq_true,
        if_false, hp]
      exact ⟨hcur, hcur⟩
    | some parsed =>
      simp only [process_transaction_message, hdup, Bool.false_eq_true,
        if_false, hp]
      exact finishProcess_inv _ _ _ _ _ _
        (update_balance_inv fail user_id parsed.amount parsed.transaction_type
          now _ ⟨hc, hcur⟩)

theorem delete_inv (expense_id user_id now : Nat) (s : Session)
    (hs : sessionInv s) :
    sessionInv (delete_auto_transaction expense_id user_id now s).2 := by
  obtain ⟨hc, hcur⟩ := hs
  cases he : findAutoExpense s.current expense_id user_id with
  | none =>
    simp only [delete_auto_transaction, he]
    exact ⟨hc, hcur⟩
  | some e =>
    simp only [delete_auto_transaction, he]
    cases hb : findBalance s.current user_id with
    | none =>
      simp only [hb]
      exact ⟨hcur, hcur⟩
    | some b =>
      simp only [hb]
      have hrev : ∀ x, balInv x → balInv (reverseMutation e now x) := by
        intro x hx
        simp only [balInv, reverseMutation] at hx ⊢
        split
        · simp only; rw [hx]; ring
        · simp only; rw [hx]; ring
      have h1 : dbInv (applyToBalance user_id (reverseMutation e now) s.current) :=
        dbInv_editFirst _ _ _ hcur hrev
      exact ⟨h1, h1⟩

theorem runOp_inv (hash : String → String) (s : Session) (op : PipelineOp)
    (hop : op.isAnEdit = false) (hs : sessionInv s) :
    sessionInv (runOp hash s op) := by
  cases op with
  | pmsg pr fail u msg now today =>
    exact process_inv hash (fun _ => pr) fail u msg now today s hs
  | pedit i u upd now => simp [PipelineOp.isAnEdit] at hop
  | pdel i u now => exact delete_inv i u now s hs

theorem runOps_inv (hash : String → String) (ops : List PipelineOp)
    (s : Session) (hops : ∀ op ∈ ops, op.isAnEdit = false)
    (hs : sessionInv s) : sessionInv (runOps hash ops s) := by
  induction ops generalizing s with
  | nil => exact hs
  | cons op rest ih =>
    exact ih (runOp hash s op) (fun o ho => hops o (by simp [ho]))
      (runOp_inv hash s op (hops op (by simp)) hs)

theorem initSession_inv : sessionInv initSession :=
  ⟨fun b hb => by simp [initSession] at hb, fun b hb => by simp [initSession] at hb⟩

/-!  ## Claims -/

/-- C1 (amended).  The claim as stated — `current_balance = total_credits
- total_debits` after *every* pipeline operation, edits included — fails
(see `c1_invariant_broken_by_edit`): `edit_auto_transaction` adjusts only
`current_balance`.  Amended: for every sequence of process-message and
delete operations containing no edit, the snapshot invariant holds for
every user at every observable point (both in the committed store and in
the session view), starting from a fresh deployment. -/
theorem c1_balance_invariant (hash : String → String) (ops : List PipelineOp)
    (hops : ∀ op ∈ ops, op.isAnEdit = false) :
    sessionInv (runOps hash ops initSession) :=
  runOps_inv hash ops initSession hops initSession_inv

theorem c1_balance_invariant_witness :
    sessionInv (runOps (fun m => m)
      [PipelineOp.pmsg (some ⟨"Debit", 10, JVal.jstr "Amazon", "Shopping"⟩)
         UBFail.uNone 1 "Paid 10 to Amazon" 5 6,
       PipelineOp.pdel 0 1 7] initSession) :=
  c1_balance_invariant (fun m => m)
    [PipelineOp.pmsg (some ⟨"Debit", 10, JVal.jstr "Amazon", "Shopping"⟩)
       UBFail.uNone 1 "Paid 10 to Amazon" 5 6,
     PipelineOp.pdel 0 1 7]
    (by simp [PipelineOp.isAnEdit])

/-- C1 counterexample: processing a Debit of 10 and then editing the
auto-detected entry's amount from 10 to 5 leaves
`current_balance = -5` but `total_credits - total_debits = -10`, so the
invariant does not hold after every pipeline operation. -/
theorem c1_invariant_broken_by_edit :
    ¬ sessionInv (runOps (fun m => m)
      [PipelineOp.pmsg (some ⟨"Debit", 10, JVal.jstr "Amazon", "Shopping"⟩)
         UBFail.uNone 1 "Paid 10 to Amazon" 5 6,
       PipelineOp.pedit 0 1 { amount := some 5 } 7]
      initSession) := by
  intro h
  have hbal : (runOps (fun m => m)
      [PipelineOp.pmsg (some ⟨"Debit", 10, JVal.jstr "Amazon", "Shopping"⟩)
         UBFail.uNone 1 "Paid 10 to Amazon" 5 6,
       PipelineOp.pedit 0 1 { amount := some 5 } 7]
      initSession).current.balances =
      [{ user_id := 1, current_balance := -5, total_credits := 0,
         total_debits := 10, last_updated := 7 }] := by
    norm_num [runOps, runOp, process_transaction_message, check_duplicate_message,
      update_balance, applyToBalance, debitMutation, creditMutation,
      autoExpense, commitS, rollbackS, initSession, findBalance, editFirst,
      pyStr, List.find?, edit_auto_transaction, findAutoExpense, applyUpdates,
      finishProcess, processedRecord, errorRecord, recordSession,
      addAutoExpense, addIncome]
  have hb := h.2 _ (by rw [hbal]; exact List.mem_singleton.mpr rfl)
  simp only [balInv] at hb
  norm_num at hb

/-!  ## Shape lemmas for the success path -/

theorem update_balance_debit_existing (u : Nat) (a : ℚ) (now : Nat)
    (s : Session) (h : (findBalance s.current u).isSome = true) :
    update_balance UBFail.uNone u a "Debit" now s =
      (true, commitS { s with current := applyToBalance u (debitMutation a now) s.current }) := by
  simp [update_balance, h]

theorem update_balance_credit_existing (u : Nat) (a : ℚ) (now : Nat)
    (s : Session) (h : (findBalance s.current u).isSome = true) :
    update_balance UBFail.uNone u a "Credit" now s =
      (true, commitS { s with current := applyToBalance u (creditMutation a now) s.current }) := by
  simp [update_balance, h]

theorem process_debit_success (hash : String → String)
    (parse : String → Option Parsed) (u : Nat) (msg : String)
    (parsed : Parsed) (now today : Nat) (s : Session)
    (hdup : check_duplicate_message s.current u (hash msg) = false)
    (hp : parse msg = some parsed) (htt : parsed.transaction_type = "Debit")
    (hbal : (findBalance s.current u).isSome = true) :
    process_transaction_message hash parse UBFail.uNone u msg now today s =
      (⟨true, some parsed, "Transaction processed successfully!"⟩,
        Session.mk
          (addAutoExpense u parsed (hash msg) msg today
            (applyToBalance u (debitMutation parsed.amount now)
              (recordSession u msg (hash msg) parsed now s).current))
          (addAutoExpense u parsed (hash msg) msg today
            (applyToBalance u (debitMutation parsed.amount now)
              (recordSession u msg (hash msg) parsed now s).current))) := by
  have h1 := update_balance_debit_existing u parsed.amount now
    (recordSession u msg (hash msg) parsed now s) hbal
  simp only [process_transaction_message, hdup, Bool.false_eq_true, if_false, hp, htt]
  rw [h1]
  simp [finishProcess, htt, commitS]

theorem findBalance_applyToBalance_some (u : Nat) (f : UserBalance → UserBalance)
    (d : DB) (b : UserBalance) (hb : findBalance d u = some b)
    (hf : ∀ x, (f x).user_id = x.user_id) :
    findBalance (applyToBalance u f d) u = some (f b) := by
  have hb' : d.balances.find? (fun x => x.user_id == u) = some b := hb
  have hpb : (b.user_id == u) = true :=
    List.find?_some (p := fun x : UserBalance => x.user_id == u) hb'
  exact find?_editFirst _ f d.balances b hb' (by simp only [hf]; exact hpb)

theorem findAutoExpense_addAutoExpense (u : Nat) (parsed : Parsed)
    (mh mt : String) (today : Nat) (d : DB)
    (hid : ∀ e ∈ d.expenses, e.id ≠ d.next_expense_id) :
    findAutoExpense (addAutoExpense u parsed mh mt today d) d.next_expense_id u =
      some (autoExpense u parsed mh mt today d.next_expense_id) := by
  unfold findAutoExpense addAutoExpense
  simp only
  rw [List.find?_append]
  have h1 : d.expenses.find?
      (fun e => e.id == d.next_expense_id && e.user_id == u && e.is_auto_detected) = none := by
    rw [List.find?_eq_none]
    intro x hx
    simp only [Bool.and_eq_true, beq_iff_eq, not_and]
    intro h
    exact absurd h.1 (hid x hx)
  rw [h1]
  simp [autoExpense]

theorem reverseMutation_user_id (e : Expense) (now : Nat) (x : UserBalance) :
    (reverseMutation e now x).user_id = x.user_id := by
  unfold reverseMutation
  split <;> rfl

theorem delete_found_balance (i u now2 : Nat) (s : Session) (e : Expense)
    (b : UserBalance) (he : findAutoExpense s.current i u = some e)
    (hb : findBalance s.current u = some b) :
    findBalance (delete_auto_transaction i u now2 s).2.current u =
      some (reverseMutation e now2 b) := by
  simp only [delete_auto_transaction, he, hb]
  exact findBalance_applyToBalance_some u _ s.current b hb
    (reverseMutation_user_id e now2)

/-- C2: for every user with an existing balance snapshot and every
successfully parsed, non-duplicate Debit message of (positive) amount
`a`, applying the debit through the pipeline and then reversing it with
the delete flow on the created auto-detected entry restores
`current_balance`, `total_debits` (and `total_credits`) exactly to their
pre-apply values, with no intervening edits. -/
theorem c2_round_trip (hash : String → String) (parse : String → Option Parsed)
    (u : Nat) (msg : String) (parsed : Parsed) (b : UserBalance)
    (now today now2 : Nat) (s : Session)
    (hp : parse msg = some parsed) (htt : parsed.transaction_type = "Debit")
    (hpos : 0 < parsed.amount)
    (hdup : check_duplicate_message s.current u (hash msg) = false)
    (hb : findBalance s.current u = some b)
    (hid : ∀ e ∈ s.current.expenses, e.id ≠ s.current.next_expense_id) :
    (get_user_balance
      (delete_auto_transaction s.current.next_expense_id u now2
        (process_transaction_message hash parse UBFail.uNone u msg now today s).2).2.current
      u).current_balance = b.current_balance ∧
    (get_user_balance
      (delete_auto_transaction s.current.next_expense_id u now2
        (process_transaction_message hash parse UBFail.uNone u msg now today s).2).2.current
      u).total_debits = b.total_debits ∧
    (get_user_balance
      (delete_auto_transaction s.current.next_expense_id u now2
        (process_transaction_message hash parse UBFail.uNone u msg now today s).2).2.current
      u).total_credits = b.total_credits := by
  have hps := process_debit_success hash parse u msg parsed now today s hdup hp htt
    (by rw [hb]; rfl)
  rw [hps]
  dsimp only
  have he := findAutoExpense_addAutoExpense u parsed (hash msg) msg today
    (applyToBalance u (debitMutation parsed.amount now)
      (recordSession u msg (hash msg) parsed now s).current) hid
  have hb2 := findBalance_applyToBalance_some u (debitMutation parsed.amount now)
    (recordSession u msg (hash msg) parsed now s).current b hb (fun x => rfl)
  have hdel := delete_found_balance s.current.next_expense_id u now2
    (Session.mk
      (addAutoExpense u parsed (hash msg) msg today
        (applyToBalance u (debitMutation parsed.amount now)
          (recordSession u msg (hash msg) parsed now s).current))
      (addAutoExpense u parsed (hash msg) msg today
        (applyToBalance u (debitMutation parsed.amount now)
          (recordSession u msg (hash msg) parsed now s).current)))
    (autoExpense u parsed (hash msg) msg today s.current.next_expense_id)
    (debitMutation parsed.amount now b) he hb2
  simp only [get_user_balance, hdel]
  refine ⟨?_, ?_, ?_⟩ <;>
    simp [reverseMutation, autoExpense, debitMutation]

theorem c2_round_trip_witness :
    (get_user_balance
      (delete_auto_transaction 0 1 9
        (process_transaction_message (fun m => m)
          (fun _ => some ⟨"Debit", 25, JVal.jstr "Amazon", "Shopping"⟩)
          UBFail.uNone 1 "Paid 25 to Amazon" 7 8
          (Session.mk ⟨[], [], [], [⟨1, 40, 100, 60, 0⟩], 0⟩
                      ⟨[], [], [], [⟨1, 40, 100, 60, 0⟩], 0⟩)).2).2.current
      1).current_balance = 40 ∧
    (get_user_balance
      (delete_auto_transaction 0 1 9
        (process_transaction_message (fun m => m)
          (fun _ => some ⟨"Debit", 25, JVal.jstr "Amazon", "Shopping"⟩)
          UBFail.uNone 1 "Paid 25 to Amazon" 7 8
          (Session.mk ⟨[], [], [], [⟨1, 40, 100, 60, 0⟩], 0⟩
                      ⟨[], [], [], [⟨1, 40, 100, 60, 0⟩], 0⟩)).2).2.current
      1).total_debits = 60 ∧
    (get_user_balance
      (delete_auto_transaction 0 1 9
        (process_transaction_message (fun m => m)
          (fun _ => some ⟨"Debit", 25, JVal.jstr "Amazon", "Shopping"⟩)
          UBFail.uNone 1 "Paid 25 to Amazon" 7 8
          (Session.mk ⟨[], [], [], [⟨1, 40, 100, 60, 0⟩], 0⟩
                      ⟨[], [], [], [⟨1, 40, 100, 60, 0⟩], 0⟩)).2).2.current
      1).total_credits = 100 :=
  c2_round_trip (fun m => m)
    (fun _ => some ⟨"Debit", 25, JVal.jstr "Amazon", "Shopping"⟩)
    1 "Paid 25 to Amazon" ⟨"Debit", 25, JVal.jstr "Amazon", "Shopping"⟩
    ⟨1, 40, 100, 60, 0⟩ 7 8 9
    (Session.mk ⟨[], [], [], [⟨1, 40, 100, 60, 0⟩], 0⟩
                ⟨[], [], [], [⟨1, 40, 100, 60, 0⟩], 0⟩)
    rfl rfl (by norm_num) rfl rfl (by simp)

/-- C3: when the balance-update step (step 4) fails after the parsed
audit row has been flushed — whether the storage layer raises before the
balance row is touched or at the commit — the message terminates as a
failure and the session is rolled back to exactly the pre-message state:
no terminal state keeps the audit row without the balance mutation or
vice versa. -/
theorem c3_rollback (hash : String → String)
    (parse : String → Option Parsed) (fail : UBFail) (u : Nat) (msg : String)
    (parsed : Parsed) (now today : Nat) (s : Session)
    (hfail : fail ≠ UBFail.uNone)
    (hp : parse msg = some parsed)
    (hdup : check_duplicate_message s.current u (hash msg) = false)
    (hcc : s.current = s.committed) :
    process_transaction_message hash parse fail u msg now today s =
      (⟨false, none, "Failed to update balance. Please try again."⟩, s) := by
  obtain ⟨sc, scur⟩ := s
  simp only at hdup hcc
  subst hcc
  cases fail with
  | uNone => exact absurd rfl hfail
  | uBeforeMutation =>
    simp [process_transaction_message, hdup, hp, update_balance, finishProcess,
      rollbackS, recordSession]
  | uAtCommit =>
    simp only [process_transaction_message, hdup, Bool.false_eq_true, if_false,
      hp, update_balance, recordSession]
    split
    · simp [finishProcess, rollbackS]
    · split
      · simp [finishProcess, rollbackS]
      · simp [finishProcess, rollbackS]

theorem c3_rollback_witness :
    process_transaction_message (fun m => m)
      (fun _ => some ⟨"Debit", 25, JVal.jstr "Amazon", "Shopping"⟩)
      UBFail.uAtCommit 1 "Paid 25 to Amazon" 7 8
      (Session.mk ({} : DB) ({} : DB)) =
      (⟨false, none, "Failed to update balance. Please try again."⟩,
        Session.mk ({} : DB) ({} : DB)) :=
  c3_rollback (fun m => m)
    (fun _ => some ⟨"Debit", 25, JVal.jstr "Amazon", "Shopping"⟩)
    UBFail.uAtCommit 1 "Paid 25 to Amazon"
    ⟨"Debit", 25, JVal.jstr "Amazon", "Shopping"⟩ 7 8
    (Session.mk ({} : DB) ({} : DB))
    (by decide) rfl rfl rfl

theorem check_duplicate_iff (d : DB) (u : Nat) (h : String) :
    check_duplicate_message d u h = true ↔
      ∃ t ∈ d.transactions, t.user_id = u ∧ t.message_hash = h := by
  unfold check_duplicate_message
  rw [List.find?_isSome]
  simp [Bool.and_eq_true, beq_iff_eq]

theorem process_dup_skip (hash : String → String)
    (parse : String → Option Parsed) (fail : UBFail) (u : Nat) (msg : String)
    (now today : Nat) (s : Session)
    (hdup : check_duplicate_message s.current u (hash msg) = true) :
    process_transaction_message hash parse fail u msg now today s =
      (⟨false, none, "This message has already been processed. Skipping duplicate."⟩, s) := by
  simp [process_transaction_message, hdup]

theorem process_once_clean (hash : String → String)
    (parse : String → Option Parsed) (fail : UBFail) (u : Nat) (msg : String)
    (parsed : Parsed) (now today : Nat) (s : Session)
    (hdup : check_duplicate_message s.current u (hash msg) = false)
    (henv : parse msg = none ∨ (parse msg = some parsed ∧
      (parsed.transaction_type = "Debit" ∨ parsed.transaction_type = "Credit") ∧
      fail = UBFail.uNone)) :
    ∃ t : Transaction, t.user_id = u ∧ t.message_hash = hash msg ∧
      (process_transaction_message hash parse fail u msg now today s).2.current.transactions
        = s.current.transactions ++ [t] ∧
      (process_transaction_message hash parse fail u msg now today s).2.current.expenses.length +
        (process_transaction_message hash parse fail u msg now today s).2.current.incomes.length ≤
        s.current.expenses.length + s.current.incomes.length + 1 := by
  rcases henv with hp | ⟨hp, htt, rfl⟩
  · refine ⟨errorRecord u msg (hash msg), rfl, rfl, ?_, ?_⟩ <;>
      simp [process_transaction_message, hdup, hp, commitS, errorRecord]
  · refine ⟨processedRecord u msg (hash msg) parsed now, rfl, rfl, ?_, ?_⟩ <;>
    · simp only [process_transaction_message, hdup, Bool.false_eq_true, if_false, hp]
      rcases htt with htt | htt <;>
      · simp only [update_balance, htt]
        split
        all_goals try split
        all_goals try split
        all_goals
          try simp_all [finishProcess, commitS, addAutoExpense, addIncome,
            applyToBalance, recordSession, rollbackS]
        all_goals omega

/-- C4: the duplicate check is true iff an audit row with the same
(user, fingerprint) pair exists, with no condition on its status; when a
matching row exists (whatever its status) a resubmission terminates with
the duplicate-skip result and leaves the whole state — audit rows,
entries, balance — untouched; and from a clean state, processing a
message twice yields exactly one audit row for that fingerprint, at most
one derived ledger entry, and a second run that is a duplicate-skip
no-op. -/
theorem c4_duplicate_idempotence :
    (∀ (d : DB) (u : Nat) (h : String),
        check_duplicate_message d u h = true ↔
          ∃ t ∈ d.transactions, t.user_id = u ∧ t.message_hash = h)
    ∧
    (∀ (hash : String → String) (parse : String → Option Parsed)
        (fail : UBFail) (u : Nat) (msg : String) (now today : Nat) (s : Session),
        check_duplicate_message s.current u (hash msg) = true →
        process_transaction_message hash parse fail u msg now today s =
          (⟨false, none, "This message has already been processed. Skipping duplicate."⟩, s))
    ∧
    (∀ (hash : String → String) (parse : String → Option Parsed)
        (fail : UBFail) (u : Nat) (msg : String) (parsed : Parsed)
        (now today : Nat) (s : Session),
        s.current.transactions.countP
          (fun t => t.user_id == u && t.message_hash == hash msg) = 0 →
        (parse msg = none ∨ (parse msg = some parsed ∧
          (parsed.transaction_type = "Debit" ∨ parsed.transaction_type = "Credit") ∧
          fail = UBFail.uNone)) →
        ((process_transaction_message hash parse fail u msg now today s).2.current.transactions.countP
            (fun t => t.user_id == u && t.message_hash == hash msg) = 1 ∧
          (process_transaction_message hash parse fail u msg now today s).2.current.expenses.length +
            (process_transaction_message hash parse fail u msg now today s).2.current.incomes.length ≤
            s.current.expenses.length + s.current.incomes.length + 1 ∧
          process_transaction_message hash parse fail u msg now today
              (process_transaction_message hash parse fail u msg now today s).2 =
            (⟨false, none, "This message has already been processed. Skipping duplicate."⟩,
              (process_transaction_message hash parse fail u msg now today s).2))) := by
  refine ⟨check_duplicate_iff, process_dup_skip, ?_⟩
  intro hash parse fail u msg parsed now today s hcount henv
  have hdup : check_duplicate_message s.current u (hash msg) = false := by
    have hnone := find?_eq_none_of_countP_eq_zero
      (fun t => t.user_id == u && t.message_hash == hash msg)
      s.current.transactions hcount
    unfold check_duplicate_message
    rw [hnone]
    rfl
  obtain ⟨t, htu, hth, htr, hlen⟩ :=
    process_once_clean hash parse fail u msg parsed now today s hdup henv
  have hcount1 : (process_transaction_message hash parse fail u msg now today
      s).2.current.transactions.countP
        (fun t => t.user_id == u && t.message_hash == hash msg) = 1 := by
    rw [htr, List.countP_append]
    simp [hcount, List.countP_cons, htu, hth]
  refine ⟨hcount1, hlen, ?_⟩
  apply process_dup_skip
  rw [check_duplicate_iff]
  exact ⟨t, by rw [htr]; simp, htu, hth⟩

theorem c4_duplicate_idempotence_witness :
    (check_duplicate_message
      ⟨[{ user_id := 1, message_text := "Paid 25 to Amazon",
          message_hash := "Paid 25 to Amazon", processing_status := "error" }],
        [], [], [], 0⟩ 1 "Paid 25 to Amazon" = true) ∧
    (process_transaction_message (fun m => m) (fun _ => none) UBFail.uNone 1
      "Paid 25 to Amazon" 0 0
      (Session.mk ({} : DB)
        ⟨[{ user_id := 1, message_text := "Paid 25 to Amazon",
            message_hash := "Paid 25 to Amazon", processing_status := "error" }],
          [], [], [], 0⟩) =
      (⟨false, none, "This message has already been processed. Skipping duplicate."⟩,
        Session.mk ({} : DB)
          ⟨[{ user_id := 1, message_text := "Paid 25 to Amazon",
              message_hash := "Paid 25 to Amazon", processing_status := "error" }],
            [], [], [], 0⟩)) ∧
    ((process_transaction_message (fun m => m) (fun _ => none) UBFail.uNone 1
        "Paid 25 to Amazon" 0 0 initSession).2.current.transactions.countP
          (fun t => t.user_id == 1 && t.message_hash == "Paid 25 to Amazon") = 1 ∧
      process_transaction_message (fun m => m) (fun _ => none) UBFail.uNone 1
          "Paid 25 to Amazon" 0 0
          (process_transaction_message (fun m => m) (fun _ => none) UBFail.uNone 1
            "Paid 25 to Amazon" 0 0 initSession).2 =
        (⟨false, none, "This message has already been processed. Skipping duplicate."⟩,
          (process_transaction_message (fun m => m) (fun _ => none) UBFail.uNone 1
            "Paid 25 to Amazon" 0 0 initSession).2)) := by
  refine ⟨?_, ?_, ?_, ?_⟩
  · exact (c4_duplicate_idempotence.1 _ 1 "Paid 25 to Amazon").mpr
      ⟨{ user_id := 1, message_text := "Paid 25 to Amazon",
         message_hash := "Paid 25 to Amazon", processing_status := "error" },
        by simp, rfl, rfl⟩
  · exact c4_duplicate_idempotence.2.1 (fun m => m) (fun _ => none) UBFail.uNone
      1 "Paid 25 to Amazon" 0 0 _ rfl
  · exact (c4_duplicate_idempotence.2.2 (fun m => m) (fun _ => none)
      UBFail.uNone 1 "Paid 25 to Amazon"
      ⟨"Debit", 1, JVal.jother, "Other"⟩ 0 0 initSession rfl (Or.inl rfl)).1
  · exact (c4_duplicate_idempotence.2.2 (fun m => m) (fun _ => none)
      UBFail.uNone 1 "Paid 25 to Amazon"
      ⟨"Debit", 1, JVal.jother, "Other"⟩ 0 0 initSession rfl (Or.inl rfl)).2.2

theorem findBalance_eq (d : DB) (u : Nat) :
    findBalance d u = d.balances.find? (fun b => b.user_id == u) := rfl

/-- C5: editing an auto-detected Debit entry's amount from `a` to `b`
(`a ≠ b`) when a balance snapshot exists changes `current_balance` by
exactly `a - b` (positive when the debit shrinks, negative when it
grows). -/
theorem c5_edit_delta (i u : Nat) (updates : Updates) (now : Nat)
    (s : Session) (e : Expense) (b0 : UserBalance) (bNew : ℚ)
    (he : findAutoExpense s.current i u = some e)
    (hdeb : e.transaction_type = some "Debit")
    (hupd : updates.amount = some bNew)
    (hne : e.amount ≠ bNew)
    (hb : findBalance s.current u = some b0) :
    (get_user_balance (edit_auto_transaction i u updates now s).2.current
      u).current_balance = b0.current_balance + (e.amount - bNew) := by
  have hamt : (applyUpdates updates e).amount = bNew := by
    simp [applyUpdates, hupd]
  have hb2 : s.current.balances.find? (fun b => b.user_id == u) = some b0 := hb
  simp only [edit_auto_transaction, he]
  rw [if_pos ⟨by simp [hupd], by rw [hamt]; exact hne⟩]
  simp only [findBalance_eq, applyToBalance, get_user_balance, commitS, hb2]
  rw [find?_editFirst (fun b => b.user_id == u) _ s.current.balances b0 hb2
    (List.find?_some (p := fun x : UserBalance => x.user_id == u) hb2)]
  simp [hamt]

theorem c5_edit_delta_witness :
    (get_user_balance (edit_auto_transaction 0 1 { amount := some 12 } 9
      (Session.mk
        ⟨[], [{ id := 0, user_id := 1, amount := 30, description := "Auto: Cafe",
                category := "Food", date := 3, ai_classified := true,
                transaction_type := some "Debit",
                merchant_or_source := some (JVal.jstr "Cafe"),
                is_auto_detected := true, message_hash := some "m",
                original_message := some "m" }], [],
          [⟨1, 100, 200, 100, 0⟩], 1⟩
        ⟨[], [{ id := 0, user_id := 1, amount := 30, description := "Auto: Cafe",
                category := "Food", date := 3, ai_classified := true,
                transaction_type := some "Debit",
                merchant_or_source := some (JVal.jstr "Cafe"),
                is_auto_detected := true, message_hash := some "m",
                original_message := some "m" }], [],
          [⟨1, 100, 200, 100, 0⟩], 1⟩)).2.current 1).current_balance = 118 := by
  have h := c5_edit_delta 0 1 { amount := some 12 } 9
    (Session.mk
      ⟨[], [{ id := 0, user_id := 1, amount := 30, description := "Auto: Cafe",
              category := "Food", date := 3, ai_classified := true,
              transaction_type := some "Debit",
              merchant_or_source := some (JVal.jstr "Cafe"),
              is_auto_detected := true, message_hash := some "m",
              original_message := some "m" }], [],
        [⟨1, 100, 200, 100, 0⟩], 1⟩
      ⟨[], [{ id := 0, user_id := 1, amount := 30, description := "Auto: Cafe",
              category := "Food", date := 3, ai_classified := true,
              transaction_type := some "Debit",
              merchant_or_source := some (JVal.jstr "Cafe"),
              is_auto_detected := true, message_hash := some "m",
              original_message := some "m" }], [],
        [⟨1, 100, 200, 100, 0⟩], 1⟩)
    { id := 0, user_id := 1, amount := 30, description := "Auto: Cafe",
      category := "Food", date := 3, ai_classified := true,
      transaction_type := some "Debit",
      merchant_or_source := some (JVal.jstr "Cafe"),
      is_auto_detected := true, message_hash := some "m",
      original_message := some "m" }
    ⟨1, 100, 200, 100, 0⟩ 12 rfl rfl rfl (by norm_num) rfl
  rw [h]
  norm_num

/-- C10: whatever the edit request contains, the edit flow leaves the
`(user_id, total_credits, total_debits)` projection of every balance row
untouched — only `current_balance` and `last_updated` can change. -/
theorem c10_edit_frame (i u : Nat) (updates : Updates) (now : Nat)
    (s : Session) :
    ((edit_auto_transaction i u updates now s).2.current.balances.map
      (fun b => (b.user_id, b.total_credits, b.total_debits))) =
    s.current.balances.map
      (fun b => (b.user_id, b.total_credits, b.total_debits)) := by
  cases he : findAutoExpense s.current i u with
  | none => simp [edit_auto_transaction, he]
  | some e =>
    simp only [edit_auto_transaction, he]
    split
    · cases hb : s.current.balances.find? (fun b => b.user_id == u) with
      | none =>
        simp only [findBalance_eq, hb]
        rfl
      | some b =>
        simp only [findBalance_eq, hb, applyToBalance, commitS]
        exact map_editFirst _ _ _ _ (fun x => rfl)
    · rfl

/-- C9: when no balance snapshot exists for the user, editing or
deleting an auto-detected entry still completes and reports success: the
edit persists the new field values and the delete removes the row, the
(absent) balance rows are untouched, and no error is surfaced. -/
theorem c9_no_snapshot :
    (∀ (i u : Nat) (updates : Updates) (now : Nat) (s : Session) (e : Expense),
      findAutoExpense s.current i u = some e →
      findBalance s.current u = none →
      (edit_auto_transaction i u updates now s).1 =
        (true, "Transaction updated successfully.") ∧
      (edit_auto_transaction i u updates now s).2.current.balances =
        s.current.balances ∧
      (edit_auto_transaction i u updates now s).2.current.expenses =
        editFirst (fun x => x.id == i && x.user_id == u && x.is_auto_detected)
          (fun _ => applyUpdates updates e) s.current.expenses)
    ∧
    (∀ (i u now : Nat) (s : Session) (e : Expense),
      findAutoExpense s.current i u = some e →
      findBalance s.current u = none →
      (delete_auto_transaction i u now s).1 =
        (true, "Transaction deleted and balance reversed.") ∧
      (delete_auto_transaction i u now s).2.current.balances =
        s.current.balances ∧
      (delete_auto_transaction i u now s).2.current.expenses =
        removeFirst (fun x => x.id == i && x.user_id == u && x.is_auto_detected)
          s.current.expenses) := by
  constructor
  · intro i u updates now s e he hbn
    have hb2 : s.current.balances.find? (fun b => b.user_id == u) = none := hbn
    simp only [edit_auto_transaction, he]
    split
    · simp only [findBalance_eq, hb2, commitS]
      refine ⟨?_, ?_, ?_⟩ <;> first | rfl | trivial
    · refine ⟨?_, ?_, ?_⟩ <;> first | rfl | trivial
  · intro i u now s e he hbn
    have hb2 : s.current.balances.find? (fun b => b.user_id == u) = none := hbn
    simp only [delete_auto_transaction, he, findBalance_eq, hb2, commitS]
    refine ⟨?_, ?_, ?_⟩ <;> first | rfl | trivial


theorem c9_no_snapshot_witness :
    ((edit_auto_transaction 0 1 { category := some "Bills" } 9
      (Session.mk ⟨[], [{ id := 0, user_id := 1, amount := 30, description := "Auto: Cafe", category := "Food", date := 3, ai_classified := true, transaction_type := some "Debit", merchant_or_source := some (JVal.jstr "Cafe"), is_auto_detected := true, message_hash := some "m", original_message := some "m" }], [], [], 1⟩ ⟨[], [{ id := 0, user_id := 1, amount := 30, description := "Auto: Cafe", category := "Food", date := 3, ai_classified := true, transaction_type := some "Debit", merchant_or_source := some (JVal.jstr "Cafe"), is_auto_detected := true, message_hash := some "m", original_message := some "m" }], [], [], 1⟩)).1 = (true, "Transaction updated successfully.")) ∧
    ((edit_auto_transaction 0 1 { category := some "Bills" } 9
      (Session.mk ⟨[], [{ id := 0, user_id := 1, amount := 30, description := "Auto: Cafe", category := "Food", date := 3, ai_classified := true, transaction_type := some "Debit", merchant_or_source := some (JVal.jstr "Cafe"), is_auto_detected := true, message_hash := some "m", original_message := some "m" }], [], [], 1⟩ ⟨[], [{ id := 0, user_id := 1, amount := 30, description := "Auto: Cafe", category := "Food", date := 3, ai_classified := true, transaction_type := some "Debit", merchant_or_source := some (JVal.jstr "Cafe"), is_auto_detected := true, message_hash := some "m", original_message := some "m" }], [], [], 1⟩)).2.current.balances = []) ∧
    ((delete_auto_transaction 0 1 9
      (Session.mk ⟨[], [{ id := 0, user_id := 1, amount := 30, description := "Auto: Cafe", category := "Food", date := 3, ai_classified := true, transaction_type := some "Debit", merchant_or_source := some (JVal.jstr "Cafe"), is_auto_detected := true, message_hash := some "m", original_message := some "m" }], [], [], 1⟩ ⟨[], [{ id := 0, user_id := 1, amount := 30, description := "Auto: Cafe", category := "Food", date := 3, ai_classified := true, transaction_type := some "Debit", merchant_or_source := some (JVal.jstr "Cafe"), is_auto_detected := true, message_hash := some "m", original_message := some "m" }], [], [], 1⟩)).1 = (true, "Transaction deleted and balance reversed.")) ∧
    ((delete_auto_transaction 0 1 9
      (Session.mk ⟨[], [{ id := 0, user_id := 1, amount := 30, description := "Auto: Cafe", category := "Food", date := 3, ai_classified := true, transaction_type := some "Debit", merchant_or_source := some (JVal.jstr "Cafe"), is_auto_detected := true, message_hash := some "m", original_message := some "m" }], [], [], 1⟩ ⟨[], [{ id := 0, user_id := 1, amount := 30, description := "Auto: Cafe", category := "Food", date := 3, ai_classified := true, transaction_type := some "Debit", merchant_or_source := some (JVal.jstr "Cafe"), is_auto_detected := true, message_hash := some "m", original_message := some "m" }], [], [], 1⟩)).2.current.balances = []) := by
  refine ⟨?_, ?_, ?_, ?_⟩
  · exact (c9_no_snapshot.1 0 1 { category := some "Bills" } 9
      (Session.mk ⟨[], [{ id := 0, user_id := 1, amount := 30, description := "Auto: Cafe", category := "Food", date := 3, ai_classified := true, transaction_type := some "Debit", merchant_or_source := some (JVal.jstr "Cafe"), is_auto_detected := true, message_hash := some "m", original_message := some "m" }], [], [], 1⟩ ⟨[], [{ id := 0, user_id := 1, amount := 30, description := "Auto: Cafe", category := "Food", date := 3, ai_classified := true, transaction_type := some "Debit", merchant_or_source := some (JVal.jstr "Cafe"), is_auto_detected := true, message_hash := some "m", original_message := some "m" }], [], [], 1⟩)
      { id := 0, user_id := 1, amount := 30, description := "Auto: Cafe", category := "Food", date := 3, ai_classified := true, transaction_type := some "Debit", merchant_or_source := some (JVal.jstr "Cafe"), is_auto_detected := true, message_hash := some "m", original_message := some "m" } rfl rfl).1
  · exact (c9_no_snapshot.1 0 1 { category := some "Bills" } 9
      (Session.mk ⟨[], [{ id := 0, user_id := 1, amount := 30, description := "Auto: Cafe", category := "Food", date := 3, ai_classified := true, transaction_type := some "Debit", merchant_or_source := some (JVal.jstr "Cafe"), is_auto_detected := true, message_hash := some "m", original_message := some "m" }], [], [], 1⟩ ⟨[], [{ id := 0, user_id := 1, amount := 30, description := "Auto: Cafe", category := "Food", date := 3, ai_classified := true, transaction_type := some "Debit", merchant_or_source := some (JVal.jstr "Cafe"), is_auto_detected := true, message_hash := some "m", original_message := some "m" }], [], [], 1⟩)
      { id := 0, user_id := 1, amount := 30, description := "Auto: Cafe", category := "Food", date := 3, ai_classified := true, transaction_type := some "Debit", merchant_or_source := some (JVal.jstr "Cafe"), is_auto_detected := true, message_hash := some "m", original_message := some "m" } rfl rfl).2.1
  · exact (c9_no_snapshot.2 0 1 9
      (Session.mk ⟨[], [{ id := 0, user_id := 1, amount := 30, description := "Auto: Cafe", category := "Food", date := 3, ai_classified := true, transaction_type := some "Debit", merchant_or_source := some (JVal.jstr "Cafe"), is_auto_detected := true, message_hash := some "m", original_message := some "m" }], [], [], 1⟩ ⟨[], [{ id := 0, user_id := 1, amount := 30, description := "Auto: Cafe", category := "Food", date := 3, ai_classified := true, transaction_type := some "Debit", merchant_or_source := some (JVal.jstr "Cafe"), is_auto_detected := true, message_hash := some "m", original_message := some "m" }], [], [], 1⟩)
      { id := 0, user_id := 1, amount := 30, description := "Auto: Cafe", category := "Food", date := 3, ai_classified := true, transaction_type := some "Debit", merchant_or_source := some (JVal.jstr "Cafe"), is_auto_detected := true, message_hash := some "m", original_message := some "m" } rfl rfl).1
  · exact (c9_no_snapshot.2 0 1 9
      (Session.mk ⟨[], [{ id := 0, user_id := 1, amount := 30, description := "Auto: Cafe", category := "Food", date := 3, ai_classified := true, transaction_type := some "Debit", merchant_or_source := some (JVal.jstr "Cafe"), is_auto_detected := true, message_hash := some "m", original_message := some "m" }], [], [], 1⟩ ⟨[], [{ id := 0, user_id := 1, amount := 30, description := "Auto: Cafe", category := "Food", date := 3, ai_classified := true, transaction_type := some "Debit", merchant_or_source := some (JVal.jstr "Cafe"), is_auto_detected := true, message_hash := some "m", original_message := some "m" }], [], [], 1⟩)
      { id := 0, user_id := 1, amount := 30, description := "Auto: Cafe", category := "Food", date := 3, ai_classified := true, transaction_type := some "Debit", merchant_or_source := some (JVal.jstr "Cafe"), is_auto_detected := true, message_hash := some "m", original_message := some "m" } rfl rfl).2.1

/-- C6: the parse-result validation rejects (returns `none`, never a
constructed transaction): a failed API call, non-JSON responses, a result
missing any of the four required fields, a `transaction_type` that is not
the string `"Credit"` or `"Debit"`, a non-numeric amount, and a
non-positive amount; an unrecognized category is not rejected — it is
silently coerced to the fallback `"Other"` and parsing succeeds. -/
theorem c6_parse_validation :
    (parse_transaction_message none = none) ∧
    (parse_transaction_message (some LLMRaw.notJson) = none) ∧
    (∀ (fields : List (String × JVal)) (key : String),
      key ∈ ["transaction_type", "amount", "merchant_or_source", "expense_category"] →
      lookupField fields key = none →
      parse_transaction_message (some (LLMRaw.jsonObj fields)) = none) ∧
    (∀ (fields : List (String × JVal)) (v : JVal),
      lookupField fields "transaction_type" = some v →
      v ≠ JVal.jstr "Credit" → v ≠ JVal.jstr "Debit" →
      parse_transaction_message (some (LLMRaw.jsonObj fields)) = none) ∧
    (∀ (fields : List (String × JVal)) (v : JVal),
      lookupField fields "amount" = some v → floatOf v = none →
      parse_transaction_message (some (LLMRaw.jsonObj fields)) = none) ∧
    (∀ (fields : List (String × JVal)) (v : JVal) (a : ℚ),
      lookupField fields "amount" = some v → floatOf v = some a → a ≤ 0 →
      parse_transaction_message (some (LLMRaw.jsonObj fields)) = none) ∧
    (∀ (fields : List (String × JVal)) (t : String) (a : ℚ) (m : JVal) (c : String),
      lookupField fields "transaction_type" = some (JVal.jstr t) →
      (t = "Credit" ∨ t = "Debit") →
      lookupField fields "amount" = some (JVal.jnum a) → 0 < a →
      lookupField fields "merchant_or_source" = some m →
      lookupField fields "expense_category" = some (JVal.jstr c) →
      c ∉ EXPENSE_CATEGORIES →
      parse_transaction_message (some (LLMRaw.jsonObj fields)) =
        some ⟨t, a, m, "Other"⟩) := by
  refine ⟨rfl, rfl, ?_, ?_, ?_, ?_, ?_⟩
  · intro fields key hkey hnone
    simp only [List.mem_cons, List.not_mem_nil, or_false] at hkey
    rcases hkey with rfl | rfl | rfl | rfl <;>
    · cases h1 : lookupField fields "transaction_type" <;>
      cases h2 : lookupField fields "amount" <;>
      cases h3 : lookupField fields "merchant_or_source" <;>
      cases h4 : lookupField fields "expense_category" <;>
        simp_all [parse_transaction_message]
  · intro fields v hv hnc hnd
    cases h2 : lookupField fields "amount" <;>
    cases h3 : lookupField fields "merchant_or_source" <;>
    cases h4 : lookupField fields "expense_category" <;>
      simp only [parse_transaction_message, hv, h2, h3, h4] <;> try rfl
    cases v with
    | jnum q => rfl
    | jother => rfl
    | jstr t =>
      have hc : t ≠ "Credit" := fun h => hnc (by rw [h])
      have hd : t ≠ "Debit" := fun h => hnd (by rw [h])
      simp [hc, hd]
  · intro fields v hv hfl
    cases h1 : lookupField fields "transaction_type" <;>
    cases h3 : lookupField fields "merchant_or_source" <;>
    cases h4 : lookupField fields "expense_category" <;>
      simp only [parse_transaction_message, hv, h1, h3, h4] <;> try rfl
    rename_i tv mv cv
    cases tv with
    | jnum q => rfl
    | jother => rfl
    | jstr t =>
      by_cases ht : t = "Credit" ∨ t = "Debit"
      · simp [ht, hfl]
      · simp [ht]
  · intro fields v a hv hfl hle
    cases h1 : lookupField fields "transaction_type" <;>
    cases h3 : lookupField fields "merchant_or_source" <;>
    cases h4 : lookupField fields "expense_category" <;>
      simp only [parse_transaction_message, hv, h1, h3, h4] <;> try rfl
    rename_i tv mv cv
    cases tv with
    | jnum q => rfl
    | jother => rfl
    | jstr t =>
      by_cases ht : t = "Credit" ∨ t = "Debit"
      · simp [ht, hfl, hle]
      · simp [ht]
  · intro fields t a m c h1 ht h2 ha h3 h4 hc
    simp only [parse_transaction_message, h1, h2, h3, h4]
    simp [ht, floatOf, not_le.mpr ha, hc]

theorem c6_parse_validation_witness :
    (parse_transaction_message none = none) ∧
    (parse_transaction_message (some LLMRaw.notJson) = none) ∧
    (parse_transaction_message (some (LLMRaw.jsonObj
      [("transaction_type", JVal.jstr "Debit")])) = none) ∧
    (parse_transaction_message (some (LLMRaw.jsonObj
      [("transaction_type", JVal.jstr "Transfer"), ("amount", JVal.jnum 2500),
       ("merchant_or_source", JVal.jstr "Amazon"),
       ("expense_category", JVal.jstr "Shopping")])) = none) ∧
    (parse_transaction_message (some (LLMRaw.jsonObj
      [("transaction_type", JVal.jstr "Debit"), ("amount", JVal.jother),
       ("merchant_or_source", JVal.jstr "Amazon"),
       ("expense_category", JVal.jstr "Shopping")])) = none) ∧
    (parse_transaction_message (some (LLMRaw.jsonObj
      [("transaction_type", JVal.jstr "Debit"), ("amount", JVal.jnum 0),
       ("merchant_or_source", JVal.jstr "Amazon"),
       ("expense_category", JVal.jstr "Shopping")])) = none) ∧
    (parse_transaction_message (some (LLMRaw.jsonObj
      [("transaction_type", JVal.jstr "Debit"), ("amount", JVal.jnum 2500),
       ("merchant_or_source", JVal.jstr "Amazon"),
       ("expense_category", JVal.jstr "Groceries")])) =
      some ⟨"Debit", 2500, JVal.jstr "Amazon", "Other"⟩) := by
  refine ⟨c6_parse_validation.1, c6_parse_validation.2.1, ?_, ?_, ?_, ?_, ?_⟩
  · exact c6_parse_validation.2.2.1 [("transaction_type", JVal.jstr "Debit")]
      "amount" (by simp) rfl
  · exact c6_parse_validation.2.2.2.1
      [("transaction_type", JVal.jstr "Transfer"), ("amount", JVal.jnum 2500),
       ("merchant_or_source", JVal.jstr "Amazon"),
       ("expense_category", JVal.jstr "Shopping")]
      (JVal.jstr "Transfer") rfl (by decide) (by decide)
  · exact c6_parse_validation.2.2.2.2.1
      [("transaction_type", JVal.jstr "Debit"), ("amount", JVal.jother),
       ("merchant_or_source", JVal.jstr "Amazon"),
       ("expense_category", JVal.jstr "Shopping")]
      JVal.jother rfl rfl
  · exact c6_parse_validation.2.2.2.2.2.1
      [("transaction_type", JVal.jstr "Debit"), ("amount", JVal.jnum 0),
       ("merchant_or_source", JVal.jstr "Amazon"),
       ("expense_category", JVal.jstr "Shopping")]
      (JVal.jnum 0) 0 rfl rfl le_rfl
  · exact c6_parse_validation.2.2.2.2.2.2
      [("transaction_type", JVal.jstr "Debit"), ("amount", JVal.jnum 2500),
       ("merchant_or_source", JVal.jstr "Amazon"),
       ("expense_category", JVal.jstr "Groceries")]
      "Debit" 2500 (JVal.jstr "Amazon") "Groceries" rfl (Or.inr rfl) rfl
      (by norm_num) rfl rfl (by decide)

/-- C7 (amended).  The claim as stated — the derived entry is tagged
`is_auto_detected = true` and carries the message fingerprint *regardless
of direction* — fails for Credits (see `c7_credit_entry_untagged`): the
`Income` model has no auto-detection flag and no fingerprint column.
Amended: a successfully parsed, non-duplicate message creates exactly one
derived entry; for a Debit it is an `Expense` tagged
`is_auto_detected = true` and carrying the fingerprint as
`message_hash`; for a Credit it is an `Income` holding only user, amount,
source and date. -/
theorem c7_entry_creation (hash : String → String)
    (parse : String → Option Parsed) (u : Nat) (msg : String)
    (parsed : Parsed) (now today : Nat) (s : Session)
    (hdup : check_duplicate_message s.current u (hash msg) = false)
    (hp : parse msg = some parsed) :
    (parsed.transaction_type = "Debit" →
      (process_transaction_message hash parse UBFail.uNone u msg now today
          s).2.current.expenses =
        s.current.expenses ++
          [autoExpense u parsed (hash msg) msg today s.current.next_expense_id] ∧
      (process_transaction_message hash parse UBFail.uNone u msg now today
          s).2.current.incomes = s.current.incomes ∧
      (autoExpense u parsed (hash msg) msg today
          s.current.next_expense_id).is_auto_detected = true ∧
      (autoExpense u parsed (hash msg) msg today
          s.current.next_expense_id).message_hash = some (hash msg) ∧
      (process_transaction_message hash parse UBFail.uNone u msg now today
          s).1.success = true)
    ∧
    (parsed.transaction_type = "Credit" →
      (process_transaction_message hash parse UBFail.uNone u msg now today
          s).2.current.expenses = s.current.expenses ∧
      (process_transaction_message hash parse UBFail.uNone u msg now today
          s).2.current.incomes =
        s.current.incomes ++
          [{ user_id := u, amount := parsed.amount,
             source := parsed.merchant_or_source, date := today }] ∧
      (process_transaction_message hash parse UBFail.uNone u msg now today
          s).1.success = true) := by
  constructor
  · intro htt
    refine ⟨?_, ?_, rfl, rfl, ?_⟩ <;>
    · simp only [process_transaction_message, hdup, Bool.false_eq_true,
        if_false, hp]
      simp only [update_balance, htt]
      split
      all_goals try split
      all_goals try split
      all_goals
        try simp_all [finishProcess, commitS, addAutoExpense, addIncome,
          applyToBalance, recordSession, rollbackS]
  · intro htt
    refine ⟨?_, ?_, ?_⟩ <;>
    · simp only [process_transaction_message, hdup, Bool.false_eq_true,
        if_false, hp]
      simp only [update_balance, htt]
      split
      all_goals try split
      all_goals try split
      all_goals
        try simp_all [finishProcess, commitS, addAutoExpense, addIncome,
          applyToBalance, recordSession, rollbackS]

/-- C7 counterexample: a Credit message is processed successfully but
its derived entry is an `Income` row — no `Expense` exists at all, so no
created entry is tagged `is_auto_detected` or carries the fingerprint. -/
theorem c7_credit_entry_untagged :
    ((process_transaction_message (fun m => m)
        (fun _ => some ⟨"Credit", 100, JVal.jstr "Employer", "Other"⟩)
        UBFail.uNone 1 "Salary 100 from Employer" 5 6 initSession).1.success
      = true) ∧
    ((process_transaction_message (fun m => m)
        (fun _ => some ⟨"Credit", 100, JVal.jstr "Employer", "Other"⟩)
        UBFail.uNone 1 "Salary 100 from Employer" 5 6
        initSession).2.current.expenses = []) ∧
    ((process_transaction_message (fun m => m)
        (fun _ => some ⟨"Credit", 100, JVal.jstr "Employer", "Other"⟩)
        UBFail.uNone 1 "Salary 100 from Employer" 5 6
        initSession).2.current.incomes =
      [{ user_id := 1, amount := 100, source := JVal.jstr "Employer",
         date := 6 }]) := by
  refine ⟨?_, ?_, ?_⟩ <;>
    norm_num [process_transaction_message, check_duplicate_message,
      update_balance, applyToBalance, debitMutation, creditMutation,
      autoExpense, commitS, rollbackS, initSession, findBalance, editFirst,
      pyStr, List.find?, finishProcess, processedRecord, errorRecord,
      recordSession, addAutoExpense, addIncome,
      show ("Credit" : String) ≠ "Debit" from by decide]

theorem c7_entry_creation_witness :
    ((process_transaction_message (fun m => m)
        (fun _ => some ⟨"Debit", 10, JVal.jstr "Amazon", "Shopping"⟩)
        UBFail.uNone 1 "Paid 10 to Amazon" 5 6
        initSession).2.current.expenses =
      initSession.current.expenses ++
        [autoExpense 1 ⟨"Debit", 10, JVal.jstr "Amazon", "Shopping"⟩
          "Paid 10 to Amazon" "Paid 10 to Amazon" 6
          initSession.current.next_expense_id]) ∧
    ((autoExpense 1 ⟨"Debit", 10, JVal.jstr "Amazon", "Shopping"⟩
        "Paid 10 to Amazon" "Paid 10 to Amazon" 6
        initSession.current.next_expense_id).message_hash =
      some "Paid 10 to Amazon") ∧
    ((process_transaction_message (fun m => m)
        (fun _ => some ⟨"Debit", 10, JVal.jstr "Amazon", "Shopping"⟩)
        UBFail.uNone 1 "Paid 10 to Amazon" 5 6 initSession).1.success = true) ∧
    ((process_transaction_message (fun m => m)
        (fun _ => some ⟨"Credit", 100, JVal.jstr "Employer", "Other"⟩)
        UBFail.uNone 1 "Salary 100 from Employer" 5 6
        initSession).2.current.expenses = initSession.current.expenses) ∧
    ((process_transaction_message (fun m => m)
        (fun _ => some ⟨"Credit", 100, JVal.jstr "Employer", "Other"⟩)
        UBFail.uNone 1 "Salary 100 from Employer" 5 6
        initSession).2.current.incomes =
      initSession.current.incomes ++
        [{ user_id := 1, amount := 100, source := JVal.jstr "Employer",
           date := 6 }]) := by
  refine ⟨?_, ?_, ?_, ?_, ?_⟩
  · exact ((c7_entry_creation (fun m => m)
      (fun _ => some ⟨"Debit", 10, JVal.jstr "Amazon", "Shopping"⟩) 1
      "Paid 10 to Amazon" ⟨"Debit", 10, JVal.jstr "Amazon", "Shopping"⟩ 5 6
      initSession rfl rfl).1 rfl).1
  · exact ((c7_entry_creation (fun m => m)
      (fun _ => some ⟨"Debit", 10, JVal.jstr "Amazon", "Shopping"⟩) 1
      "Paid 10 to Amazon" ⟨"Debit", 10, JVal.jstr "Amazon", "Shopping"⟩ 5 6
      initSession rfl rfl).1 rfl).2.2.2.1
  · exact ((c7_entry_creation (fun m => m)
      (fun _ => some ⟨"Debit", 10, JVal.jstr "Amazon", "Shopping"⟩) 1
      "Paid 10 to Amazon" ⟨"Debit", 10, JVal.jstr "Amazon", "Shopping"⟩ 5 6
      initSession rfl rfl).1 rfl).2.2.2.2
  · exact ((c7_entry_creation (fun m => m)
      (fun _ => some ⟨"Credit", 100, JVal.jstr "Employer", "Other"⟩) 1
      "Salary 100 from Employer" ⟨"Credit", 100, JVal.jstr "Employer", "Other"⟩
      5 6 initSession rfl rfl).2 rfl).1
  · exact ((c7_entry_creation (fun m => m)
      (fun _ => some ⟨"Credit", 100, JVal.jstr "Employer", "Other"⟩) 1
      "Salary 100 from Employer" ⟨"Credit", 100, JVal.jstr "Employer", "Other"⟩
      5 6 initSession rfl rfl).2 rfl).2.1

/-- C8 (amended).  The claim as stated — HTTP status 200 for a
duplicate-skip — fails (see `c8_duplicate_not_200`): the route ends with
`return jsonify(response_data), 200 if success else 400`, so every
unsuccessful outcome, the duplicate-skip included, gets status 400.
Amended: resubmitting an already-recorded identical message (within the
length bounds) returns a body with `success = false`, the duplicate-skip
message, no data and no balance key, HTTP status 400, and leaves the
state untouched. -/
theorem c8_duplicate_http_status (hash : String → String)
    (parse : String → Option Parsed) (fail : UBFail) (u : Nat) (raw : String)
    (now today : Nat) (s : Session)
    (hlen1 : 10 ≤ (pyStrip raw).length) (hlen2 : (pyStrip raw).length ≤ 2000)
    (hdup : check_duplicate_message s.current u (hash (pyStrip raw)) = true) :
    upload_transaction_message hash parse fail u (some raw) now today s =
      ({ success := false,
         message := "This message has already been processed. Skipping duplicate.",
         data := none, balance := none, status := 400 }, s) := by
  simp only [upload_transaction_message]
  rw [if_neg (by omega), if_neg (by omega)]
  rw [process_dup_skip hash parse fail u (pyStrip raw) now today s hdup]
  rfl

/-- C8 counterexample: a resubmission of an already-processed message
gets HTTP status 400, not 200. -/
theorem c8_duplicate_not_200 :
    (upload_transaction_message (fun m => m) (fun _ => none) UBFail.uNone 1
      (some "Paid 25 to Amazon") 7 8
      (Session.mk
        ⟨[{ user_id := 1, message_text := "Paid 25 to Amazon",
            message_hash := "Paid 25 to Amazon",
            processing_status := "processed" }], [], [], [], 0⟩
        ⟨[{ user_id := 1, message_text := "Paid 25 to Amazon",
            message_hash := "Paid 25 to Amazon",
            processing_status := "processed" }], [], [], [], 0⟩)).1 =
      { success := false,
        message := "This message has already been processed. Skipping duplicate.",
        data := none, balance := none, status := 400 } ∧
    (upload_transaction_message (fun m => m) (fun _ => none) UBFail.uNone 1
      (some "Paid 25 to Amazon") 7 8
      (Session.mk
        ⟨[{ user_id := 1, message_text := "Paid 25 to Amazon",
            message_hash := "Paid 25 to Amazon",
            processing_status := "processed" }], [], [], [], 0⟩
        ⟨[{ user_id := 1, message_text := "Paid 25 to Amazon",
            message_hash := "Paid 25 to Amazon",
            processing_status := "processed" }], [], [], [], 0⟩)).1.status
      ≠ 200 := by decide

theorem c8_duplicate_http_status_witness :
    upload_transaction_message (fun m => m) (fun _ => none) UBFail.uNone 1
      (some " Paid 25 to Amazon ") 7 8
      (Session.mk
        ⟨[{ user_id := 1, message_text := "Paid 25 to Amazon",
            message_hash := "Paid 25 to Amazon",
            processing_status := "error" }], [], [], [], 0⟩
        ⟨[{ user_id := 1, message_text := "Paid 25 to Amazon",
            message_hash := "Paid 25 to Amazon",
            processing_status := "error" }], [], [], [], 0⟩) =
      ({ success := false,
         message := "This message has already been processed. Skipping duplicate.",
         data := none, balance := none, status := 400 },
        Session.mk
          ⟨[{ user_id := 1, message_text := "Paid 25 to Amazon",
              message_hash := "Paid 25 to Amazon",
              processing_status := "error" }], [], [], [], 0⟩
          ⟨[{ user_id := 1, message_text := "Paid 25 to Amazon",
              message_hash := "Paid 25 to Amazon",
              processing_status := "error" }], [], [], [], 0⟩) :=
  c8_duplicate_http_status (fun m => m) (fun _ => none) UBFail.uNone 1
    " Paid 25 to Amazon " 7 8
    (Session.mk
      ⟨[{ user_id := 1, message_text := "Paid 25 to Amazon",
          message_hash := "Paid 25 to Amazon",
          processing_status := "error" }], [], [], [], 0⟩
      ⟨[{ user_id := 1, message_text := "Paid 25 to Amazon",
          message_hash := "Paid 25 to Amazon",
          processing_status := "error" }], [], [], [], 0⟩)
    (by decide) (by decide) (by decide)
